import Mathlib

/-!
Verification of the emote-set-copier synchronization engine.

This file gives a shallow embedding, in Lean 4, of the parts of the
program that the design document makes claims about:

* the data model (`src/app/models.py`),
* the Diff Engine `process_emotes_to_copy` (`src/main.py`),
* identifier validation `is_valid_id` (`src/app/utils.py`),
* the remote-client error classification in `add_emote`, `remove_emote`
  and `emote_set_from_id` (`src/app/seventv.py`),
* the Sync Executor loop `copy_emotes` (`src/main.py`).

Python-specific semantics that matter here are embedded explicitly:
list slicing with a possibly negative bound, `re.match` with a `$`
anchor (which also matches just before one trailing newline), dict
indexing that raises `KeyError` on a missing key, and pydantic's
`model_validate` raising a validation error on `None` input.
-/

namespace EmoteSetCopier

/-! ## Data model (src/app/models.py)

`capacity` and `totalCount` are Python ints; `totalCount` may exceed
`capacity` (the design allows transient overflow), so the available
space `capacity - totalCount` may be negative.  We model both as `Int`.
The pydantic field `private` is a Lean keyword, so the flag is named
`is_private` here.
-/

structure EmoteFlags where
  is_private : Bool
deriving DecidableEq, Repr

structure EmoteData where
  id : String
  default_name : String
  flags : EmoteFlags
deriving DecidableEq, Repr

structure EmoteSetEmote where
  id : String
  «alias» : String
  data : EmoteData
deriving DecidableEq, Repr

structure Emotes where
  items : List EmoteSetEmote
  total_count : Int
deriving DecidableEq, Repr

structure Owner where
  id : String
  editors : List String
deriving DecidableEq, Repr

structure EmoteSet where
  id : String
  name : String
  capacity : Int
  emotes : Emotes
  owner : Owner
deriving DecidableEq, Repr

/-! ## Python list slicing

`lst[:n]` for a Python int `n`: a non-negative `n` keeps the first `n`
elements; a negative `n` drops the last `|n|` elements (empty result
when `|n| ≥ len(lst)`).
-/

def pySliceTo (l : List α) (n : Int) : List α :=
  if 0 ≤ n then l.take n.toNat else l.take (l.length - n.natAbs)

/-! ## Diff Engine (src/main.py, `process_emotes_to_copy`)

The two interactive confirmations (`replace conflicting emotes?`,
`only add emotes that fit?`) are session-wide boolean decisions; they
are passed in as the parameters `replaceConflicts` and `trimToCapacity`.
In the source they are only asked when the corresponding branch is
reached (some conflict exists / the survivors exceed the space), which
the `if` conditions below reproduce.  The source exits the process when
the final list is empty; the plan computed up to that point is the
returned list, which is what the design's claims are about.
-/

def process_emotes_to_copy (from_emote_set target_emote_set : EmoteSet)
    (replaceConflicts trimToCapacity : Bool) : List EmoteSetEmote :=
  -- Ignore private emotes
  let non_private_emotes :=
    from_emote_set.emotes.items.filter (fun e => !e.data.flags.is_private)
  -- Ignore emotes that are the exact same in the target emote set
  let target_pairs := target_emote_set.emotes.items.map (fun e => (e.id, e.«alias»))
  let new_emotes :=
    non_private_emotes.filter (fun e => !target_pairs.contains (e.id, e.«alias»))
  -- Ignore emotes that have the same name
  let target_aliases := target_emote_set.emotes.items.map (fun e => e.«alias»)
  let non_conflicting_emotes :=
    non_private_emotes.filter (fun e => !target_aliases.contains e.«alias»)
  let conflicting := new_emotes.length - non_conflicting_emotes.length
  let non_conflicting_emotes :=
    if conflicting > 0 && replaceConflicts then new_emotes else non_conflicting_emotes
  -- Ignore emotes that would exceed the target emote set's capacity
  let space_available : Int :=
    target_emote_set.capacity - target_emote_set.emotes.total_count
  let emotes_to_copy : Int := non_conflicting_emotes.length
  if space_available < emotes_to_copy && trimToCapacity then
    pySliceTo non_conflicting_emotes space_available
  else
    non_conflicting_emotes

/-! ## Identifier validation (src/app/utils.py, `is_valid_id`)

The source tests `bool(re.match(r"^[0-9a-fA-F]{24}$", id))` and
`bool(re.match(r"^[0-7][0-9A-HJKMNP-TV-Z]{25}$", id))`.  Both patterns
are a fixed sequence of character classes between `^` and `$`.  Without
`re.MULTILINE`, Python's `$` matches at the very end of the string and
also just before a newline that ends the string, so `classesMatch`
accepts the matched characters followed by either nothing or a single
trailing `'\n'`.
-/

/-- Remainder allowed after the `{n}`-quantified classes when the
pattern ends in `$`: the end of the string, or one final newline. -/
def tailOk : List Char → Bool
  | [] => true
  | [c] => c == '\n'
  | _ => false

/-- Match a list of character classes, one character each, anchored at
the start (`re.match`) and ended by a Python `$`. -/
def classesMatch : List (Char → Bool) → List Char → Bool
  | [], cs => tailOk cs
  | _ :: _, [] => false
  | p :: ps, c :: cs => p c && classesMatch ps cs

/-- Character class `[0-9a-fA-F]`. -/
def isHexChar (c : Char) : Bool :=
  ('0' ≤ c && c ≤ '9') || ('a' ≤ c && c ≤ 'f') || ('A' ≤ c && c ≤ 'F')

/-- Character class `[0-7]`. -/
def isUlidFirstChar (c : Char) : Bool :=
  '0' ≤ c && c ≤ '7'

/-- Character class `[0-9A-HJKMNP-TV-Z]`: digits and uppercase letters
other than I, L, O, U. -/
def isUlidChar (c : Char) : Bool :=
  ('0' ≤ c && c ≤ '9') ||
    (('A' ≤ c && c ≤ 'Z') && c ≠ 'I' && c ≠ 'L' && c ≠ 'O' && c ≠ 'U')

/-- `^[0-9a-fA-F]{24}$` as a class sequence. -/
def mongoObjectidClasses : List (Char → Bool) :=
  List.replicate 24 isHexChar

/-- `^[0-7][0-9A-HJKMNP-TV-Z]{25}$` as a class sequence. -/
def ulidClasses : List (Char → Bool) :=
  isUlidFirstChar :: List.replicate 25 isUlidChar

def is_valid_id (id : String) : Bool :=
  classesMatch mongoObjectidClasses id.toList
    || classesMatch ulidClasses id.toList
    || id == "global"

/-! ## Remote client error classification (src/app/seventv.py)

A GraphQL error has a free-text `message` and an optional `extensions`
dict.  The source indexes `extension["code"]` and
`extension["message"]` without guarding, so a present `extensions`
dict missing either key makes the call raise `KeyError` instead of one
of the taxonomy errors; the model keeps both keys optional and reports
that path as `keyError`.  The message text carried by `OtherError` does
not affect which error is raised, so the outcome type drops it.
-/

structure GqlExtensions where
  code : Option String
  message : Option String
deriving DecidableEq, Repr

structure GqlError where
  message : String
  extensions : Option GqlExtensions
deriving DecidableEq, Repr

/-- Outcome of one `add_emote` / `remove_emote` call, as seen by the
caller: either normal return or one of the raised exceptions.
`restError` is `RestError` (raised on a non-2xx HTTP status before the
body is inspected), `keyError` is an unhandled Python `KeyError`, and
`indexError` is the unhandled `IndexError` from `data["errors"][0]` on
an empty errors array. -/
inductive MutationOutcome where
  | ok
  | restError
  | emoteNotFoundError
  | conflictError
  | capacityError
  | unprivilegedError
  | otherError
  | keyError
  | indexError
deriving DecidableEq, Repr

/-- `needle` occurs at the start of `haystack`. -/
def charsStartWith : List Char → List Char → Bool
  | [], _ => true
  | _ :: _, [] => false
  | a :: as, b :: bs => a == b && charsStartWith as bs

/-- `needle` occurs contiguously somewhere in `haystack` (Python's
`needle in haystack` on strings). -/
def charsContain (needle : List Char) : List Char → Bool
  | [] => charsStartWith needle []
  | b :: bs => charsStartWith needle (b :: bs) || charsContain needle bs

/-- ASCII lowering of one character; Python's `str.lower()` restricted
to the ASCII range the compared texts use. -/
def pyLowerChar (c : Char) : Char :=
  if 'A' ≤ c && c ≤ 'Z' then Char.ofNat (c.toNat + 32) else c

/-- `"emote not found" in message.lower()`. -/
def messageSaysEmoteNotFound (message : String) : Bool :=
  charsContain "emote not found".toList (message.toList.map pyLowerChar)

/-- Classification of `data["errors"][0]` in `add_emote`
(src/app/seventv.py lines 117-138). -/
def classifyAddError (e : GqlError) : MutationOutcome :=
  if messageSaysEmoteNotFound e.message then .emoteNotFoundError
  else
    match e.extensions with
    | none => .otherError
    | some ext =>
      match ext.code with
      | none => .keyError        -- extension["code"] raises
      | some code =>
        match ext.message with
        | none => .keyError      -- extension["message"] raises
        | some _ =>
          if code == "LACKING_PRIVILEGES" then .unprivilegedError
          else if code == "BAD_REQUEST" then .conflictError
          else if code == "LOAD_ERROR" then .capacityError
          else .otherError

/-- Classification of `data["errors"][0]` in `remove_emote`
(src/app/seventv.py lines 187-204). -/
def classifyRemoveError (e : GqlError) : MutationOutcome :=
  if messageSaysEmoteNotFound e.message then .emoteNotFoundError
  else
    match e.extensions with
    | none => .otherError
    | some ext =>
      match ext.code with
      | none => .keyError
      | some code =>
        match ext.message with
        | none => .keyError
        | some _ =>
          if code == "LACKING_PRIVILEGES" then .unprivilegedError
          else .otherError

/-- Body of a 2xx GraphQL mutation response: `errors` is the optional
`errors` array (`none` when the key is absent). -/
structure GqlMutationBody where
  errors : Option (List GqlError)
deriving DecidableEq, Repr

/-- `add_emote` on a 2xx response body. -/
def add_emote (body : GqlMutationBody) : MutationOutcome :=
  match body.errors with
  | none => .ok
  | some [] => .indexError       -- data["errors"][0] raises
  | some (e :: _) => classifyAddError e

/-- `remove_emote` on a 2xx response body. -/
def remove_emote (body : GqlMutationBody) : MutationOutcome :=
  match body.errors with
  | none => .ok
  | some [] => .indexError
  | some (e :: _) => classifyRemoveError e

/-! ## Fetch (src/app/seventv.py, `emote_set_from_id`)

The input describes what the one HTTP request does: either the
transport faults before a response exists (`requests.post` raises a
`requests.ConnectionError`/`Timeout`, which is *not* an
`requests.HTTPError` and so is not converted), or a response with some
status arrives.  On a response, `raise_for_status()` raises
`requests.HTTPError` exactly for statuses 400-599, which the source
converts to `RestError`.  Otherwise the body's
`data.emoteSets.emoteSet` field is either `null` — in which case
`EmoteSet.model_validate(None)` raises a pydantic validation error —
or a collection object, which is returned.
-/

inductive FetchRequest where
  | connectionFault
  | httpResponse (status : Nat) (emote_set : Option EmoteSet)
deriving DecidableEq, Repr

inductive FetchOutcome where
  | found (s : EmoteSet)    -- normal return of an EmoteSet
  | restError               -- raises RestError
  | requestException        -- uncaught transport exception (not HTTPError)
  | validationError         -- uncaught pydantic ValidationError
deriving DecidableEq, Repr

def emote_set_from_id : FetchRequest → FetchOutcome
  | .connectionFault => .requestException
  | .httpResponse status es =>
    if 400 ≤ status && status ≤ 599 then .restError
    else
      match es with
      | none => .validationError
      | some s => .found s

/-! ## Sync Executor (src/main.py, `copy_emotes`)

The loop body per plan item, driven by a trace of `Attempt`s: the
`n`-th trace element gives the outcome the remote produces for the
`remove_emote` call (consulted only if removal happens this iteration)
and for the `add_emote` call (consulted only if the flow reaches it) of
the `n`-th iteration of the `while True` loop.

An `ItemRun` records the loop's observable behavior for one item: how
it ended, the `time.sleep` delays performed in order, and the emote ids
passed to `remove_emote` in order.
-/

structure Attempt where
  removeRes : MutationOutcome
  addRes : MutationOutcome
deriving DecidableEq, Repr

inductive ItemOutcome where
  | added            -- `break` after a successful add
  | skipped          -- `break` from the EmoteNotFoundError / ConflictError handlers
  | exited (code : Nat)  -- sys.exit(code) from inside the loop
  | uncaught         -- an exception no handler catches escapes copy_emotes
  | starved          -- trace exhausted while the loop would continue
deriving DecidableEq, Repr

structure ItemRun where
  outcome : ItemOutcome
  delays : List Nat
  removeCalls : List String
deriving DecidableEq, Repr

/-- Record one `remove_emote(token, set, cid)` call in front of a run. -/
def withRemoveCall (cid : String) (r : ItemRun) : ItemRun :=
  { r with removeCalls := cid :: r.removeCalls }

/-- `45 - (15 if attempts > 1 else 0)` with `attempts` already
incremented: 30 before the first retry, 45 before every later one. -/
def retrySleep (attempts : Nat) : Nat :=
  45 - (if attempts > 1 then 15 else 0)

/-- The `except (RestError, OtherError)` handler: `attempts` was
`attempts` before the increment; at 5 total failed attempts the
process exits with status 1, otherwise it sleeps and re-enters the
loop, whose run is `loopRun`. -/
def retryRun (loopRun : ItemRun) (attempts : Nat) : ItemRun :=
  if attempts + 1 ≥ 5 then ⟨.exited 1, [], []⟩
  else { loopRun with delays := retrySleep (attempts + 1) :: loopRun.delays }

/-- Dispatch on what `add_emote` did, given the run `retry` that the
loop produces if this iteration ends in the retry handler. -/
def addPhase (addRes : MutationOutcome) (retry : ItemRun) : ItemRun :=
  match addRes with
  | .ok => ⟨.added, [], []⟩
  | .restError => retry
  | .otherError => retry
  | .emoteNotFoundError => ⟨.skipped, [], []⟩
  | .conflictError => ⟨.skipped, [], []⟩
  | .unprivilegedError => ⟨.exited 1, [], []⟩
  | .capacityError => ⟨.exited 0, [], []⟩
  | .keyError => ⟨.uncaught, [], []⟩
  | .indexError => ⟨.uncaught, [], []⟩

/-- One plan item's `while True` loop.  `conflict` is the id of the
conflicting target emote when the stale-snapshot lookup finds one (the
snapshot never changes, so the lookup result is the same every
iteration).  `skip_removal` and `attempts` are the loop's mutable
locals. -/
def copyEmoteLoop (conflict : Option String) :
    List Attempt → Bool → Nat → ItemRun
  | [], _, _ => ⟨.starved, [], []⟩
  | a :: rest, skip_removal, attempts =>
    match conflict with
    | none =>
      addPhase a.addRes
        (retryRun (copyEmoteLoop conflict rest skip_removal (attempts + 1)) attempts)
    | some cid =>
      if skip_removal then
        addPhase a.addRes
          (retryRun (copyEmoteLoop conflict rest true (attempts + 1)) attempts)
      else
        match a.removeRes with
        | .ok =>
          withRemoveCall cid (addPhase a.addRes
            (retryRun (copyEmoteLoop conflict rest false (attempts + 1)) attempts))
        | .emoteNotFoundError =>
          -- inner handler: warn, set skip_removal, fall through to add
          withRemoveCall cid (addPhase a.addRes
            (retryRun (copyEmoteLoop conflict rest true (attempts + 1)) attempts))
        | .restError =>
          withRemoveCall cid
            (retryRun (copyEmoteLoop conflict rest false (attempts + 1)) attempts)
        | .otherError =>
          withRemoveCall cid
            (retryRun (copyEmoteLoop conflict rest false (attempts + 1)) attempts)
        | .unprivilegedError => withRemoveCall cid ⟨.exited 1, [], []⟩
        | .conflictError => withRemoveCall cid ⟨.skipped, [], []⟩
        | .capacityError => withRemoveCall cid ⟨.exited 0, [], []⟩
        | .keyError => withRemoveCall cid ⟨.uncaught, [], []⟩
        | .indexError => withRemoveCall cid ⟨.uncaught, [], []⟩

/-- `next((e for e in target_emote_set.emotes.items if e.alias == emote.alias), None)`. -/
def conflictingEmote (target_emote_set : EmoteSet) (emote : EmoteSetEmote) :
    Option EmoteSetEmote :=
  target_emote_set.emotes.items.find? (fun e => e.«alias» == emote.«alias»)

inductive SessionOutcome where
  | completed            -- "All emotes successfully copied!"
  | exited (code : Nat)  -- sys.exit(code) during some item
  | uncaught             -- exception escaped copy_emotes
  | starved              -- some item's trace ran out
deriving DecidableEq, Repr

structure SessionRun where
  itemRuns : List ItemRun  -- runs of the items actually started, in order
  outcome : SessionOutcome
deriving DecidableEq, Repr

/-- The `for emote in emotes_to_copy` loop of `copy_emotes`: each item
starts with `skip_removal = False` and `attempts = 0`; a `sys.exit` or
escaping exception ends the session with no further items processed. -/
def copy_emotes (target_emote_set : EmoteSet) :
    List (EmoteSetEmote × List Attempt) → SessionRun
  | [] => ⟨[], .completed⟩
  | (emote, trace) :: rest =>
    let conflict := (conflictingEmote target_emote_set emote).map (fun e => e.id)
    let r := copyEmoteLoop conflict trace false 0
    match r.outcome with
    | .added =>
      let s := copy_emotes target_emote_set rest
      ⟨r :: s.itemRuns, s.outcome⟩
    | .skipped =>
      let s := copy_emotes target_emote_set rest
      ⟨r :: s.itemRuns, s.outcome⟩
    | .exited c => ⟨[r], .exited c⟩
    | .uncaught => ⟨[r], .uncaught⟩
    | .starved => ⟨[r], .starved⟩

/-! ## Helper lemmas -/

theorem pySliceTo_subset (l : List α) (n : Int) : pySliceTo l n ⊆ l := by
  unfold pySliceTo
  split <;> exact List.take_subset _ _

/-! ## C1 -/

/-- C1: the claim says that with `trimToCapacity = true` and
`availableSpace ≤ 0` the plan is empty (`len ≤ max(0, availableSpace)`).
The code slices with `non_conflicting_emotes[:space_available]`, and a
negative Python slice bound keeps a prefix: with capacity 5 and
total count 6 (`availableSpace = -1`) and two eligible origin emotes,
the "trimmed" plan still has one entry instead of zero. -/
theorem c1_trim_negative_space_eval :
    (process_emotes_to_copy
      ⟨"o", "origin", 10,
        ⟨[⟨"E1", "a", ⟨"E1", "a", ⟨false⟩⟩⟩, ⟨"E2", "b", ⟨"E2", "b", ⟨false⟩⟩⟩], 2⟩,
        ⟨"u", []⟩⟩
      ⟨"t", "target", 5, ⟨[], 6⟩, ⟨"u", []⟩⟩
      false true).length = 1 := by decide

/-! ## C2 -/

/-- C2: the claim says the fetch returns absence (not an error) when a
successful response reports no such collection, and raises
`RetrievalError` exactly on transport failure or non-2xx status.  In
the code a 200 response whose `emoteSet` field is `null` reaches
`EmoteSet.model_validate(None)`, which raises an uncaught pydantic
validation error — there is no `None`-returning path — and a transport
fault is not a `requests.HTTPError`, so it escapes unconverted instead
of becoming `RestError`. -/
theorem c2_not_found_eval :
    emote_set_from_id (.httpResponse 200 none) = .validationError ∧
    emote_set_from_id .connectionFault = .requestException ∧
    FetchOutcome.requestException ≠ .restError := by decide

/-! ## C10 -/

/-- C10: both mutation clients classify a response with a non-empty
`errors` array by its first element alone; the rest of the array never
influences the outcome. -/
theorem c10_only_first_error_used (e : GqlError) (rest rest' : List GqlError) :
    add_emote ⟨some (e :: rest)⟩ = add_emote ⟨some (e :: rest')⟩ ∧
    remove_emote ⟨some (e :: rest)⟩ = remove_emote ⟨some (e :: rest')⟩ :=
  ⟨rfl, rfl⟩

/-! ## C4 -/

/-- C4 counterexample: the claim says absence of a code field yields
`UnclassifiedError` (and never an unhandled fault).  On a payload whose
`extensions` dict is present but has no `"code"` key, the source
evaluates `extension["code"]`, which raises an unhandled `KeyError`
rather than `OtherError`. -/
theorem c4_missing_code_counterexample :
    classifyAddError ⟨"boom", some ⟨none, none⟩⟩ = .keyError ∧
    MutationOutcome.keyError ≠ .otherError := by decide

/-- C4 (amended): a message containing "emote not found"
(case-insensitively) yields `NotFoundError`; otherwise, when the
`extensions` object is absent the result is `UnclassifiedError`; when
it is present, its `code` and `message` entries are read
unconditionally — if either is missing the call dies with an unhandled
`KeyError` — and with both present the code decides:
`LACKING_PRIVILEGES` → `AuthorizationError`, `BAD_REQUEST` →
`ConflictError`, `LOAD_ERROR` → `CapacityError`, anything else →
`UnclassifiedError`. -/
theorem c4_amended_classification (e : GqlError) :
    (messageSaysEmoteNotFound e.message = true →
      classifyAddError e = .emoteNotFoundError) ∧
    (messageSaysEmoteNotFound e.message = false →
      (e.extensions = none → classifyAddError e = .otherError) ∧
      (∀ code msg, e.extensions = some ⟨some code, some msg⟩ →
        classifyAddError e =
          if code == "LACKING_PRIVILEGES" then .unprivilegedError
          else if code == "BAD_REQUEST" then .conflictError
          else if code == "LOAD_ERROR" then .capacityError
          else .otherError) ∧
      (∀ ext, e.extensions = some ext → (ext.code = none ∨ ext.message = none) →
        classifyAddError e = .keyError)) := by
  obtain ⟨m, ex⟩ := e
  refine ⟨fun h => ?_, fun h => ⟨fun hx => ?_, fun code msg hx => ?_, fun ext hx hcm => ?_⟩⟩
  · simp [classifyAddError, h]
  · subst hx; simp [classifyAddError, h]
  · subst hx; simp only [classifyAddError, h, Bool.false_eq_true, if_false]
  · subst hx
    obtain ⟨c, cm⟩ := ext
    rcases hcm with hc | hm
    · simp only at hc; subst hc
      simp [classifyAddError, h]
    · simp only at hm; subst hm
      cases c <;> simp [classifyAddError, h]

/-- C4 witness: the amended classification evaluated at one concrete
payload per branch. -/
theorem c4_amended_classification_witness :
    classifyAddError ⟨"the Emote Not Found here", none⟩ = .emoteNotFoundError ∧
    classifyAddError ⟨"x", none⟩ = .otherError ∧
    classifyAddError ⟨"x", some ⟨some "LOAD_ERROR", some "m"⟩⟩ = .capacityError ∧
    classifyAddError ⟨"x", some ⟨none, none⟩⟩ = .keyError :=
  ⟨(c4_amended_classification ⟨"the Emote Not Found here", none⟩).1 (by decide),
   ((c4_amended_classification ⟨"x", none⟩).2 (by decide)).1 rfl,
   by simpa using
     (((c4_amended_classification ⟨"x", some ⟨some "LOAD_ERROR", some "m"⟩⟩).2
       (by decide)).2.1 "LOAD_ERROR" "m" rfl),
   (((c4_amended_classification ⟨"x", some ⟨none, none⟩⟩).2
       (by decide)).2.2 ⟨none, none⟩ rfl (Or.inl rfl))⟩

/-! ## C8 -/

/-- Pointwise match of exactly the whole character list, no `$`
leniency: the building block for describing `classesMatch`. -/
def matchesAll : List (Char → Bool) → List Char → Bool
  | [], [] => true
  | p :: ps, c :: cs => p c && matchesAll ps cs
  | _, _ => false

theorem matchesAll_nil (cs : List Char) : matchesAll [] cs = cs.isEmpty := by
  cases cs <;> rfl

theorem classesMatch_eq_matchesAll (ps : List (Char → Bool)) (cs : List Char) :
    classesMatch ps cs =
      (matchesAll ps cs || (cs.getLast? == some '\n' && matchesAll ps cs.dropLast)) := by
  induction ps generalizing cs with
  | nil =>
    match cs with
    | [] => rfl
    | [c] => simp [classesMatch, tailOk, matchesAll]
    | c :: d :: t =>
      have hne : (d :: t).dropLast.length + 1 ≠ 0 := by omega
      simp only [classesMatch, tailOk, matchesAll_nil, List.isEmpty_iff,
        List.dropLast_cons₂, List.getLast?_cons_cons]
      simp
  | cons p ps ih =>
    match cs with
    | [] => rfl
    | [c] =>
      simp only [classesMatch, ih, matchesAll, List.getLast?_nil, List.dropLast_nil,
        List.dropLast_single, List.getLast?_singleton]
      cases p c <;> cases h : matchesAll ps [] <;> simp [matchesAll]
    | c :: d :: t =>
      simp only [classesMatch, ih, matchesAll, List.getLast?_cons_cons,
        List.dropLast_cons₂]
      cases p c <;> simp

theorem matchesAll_replicate (f : Char → Bool) (n : Nat) (cs : List Char) :
    matchesAll (List.replicate n f) cs = (cs.length == n && cs.all f) := by
  induction n generalizing cs with
  | zero => cases cs <;> simp [matchesAll]
  | succ n ih =>
    cases cs with
    | nil => simp [List.replicate_succ, matchesAll]
    | cons c t =>
      simp only [List.replicate_succ, matchesAll, ih, List.length_cons, List.all_cons]
      cases f c <;> cases h : t.length == n <;>
        simp_all [Nat.succ_inj', beq_iff_eq]

/-- `^[0-9a-fA-F]{24}$` without the trailing-newline leniency: a
24-character hexadecimal string, as the design document words it. -/
def isMongoObjectidChars (cs : List Char) : Bool :=
  cs.length == 24 && cs.all isHexChar

/-- `^[0-7][0-9A-HJKMNP-TV-Z]{25}$` without the trailing-newline
leniency: a 26-character modern-format string, as the design document
words it. -/
def isUlidChars : List Char → Bool
  | [] => false
  | c :: rest => isUlidFirstChar c && (rest.length == 25 && rest.all isUlidChar)

theorem matchesAll_mongo (cs : List Char) :
    matchesAll mongoObjectidClasses cs = isMongoObjectidChars cs :=
  matchesAll_replicate isHexChar 24 cs

theorem matchesAll_ulid (cs : List Char) :
    matchesAll ulidClasses cs = isUlidChars cs := by
  cases cs with
  | nil => rfl
  | cons c t =>
    simp only [ulidClasses, matchesAll, isUlidChars]
    rw [matchesAll_replicate]

/-- A shape, or the same shape followed by one final `'\n'` — the extra
strings Python's `$` anchor lets through. -/
def withOptionalTrailingNewline (shape : List Char → Bool) (cs : List Char) : Bool :=
  shape cs || (cs.getLast? == some '\n' && shape cs.dropLast)

/-- The amended validity predicate, written from the amended claim:
legacy or modern format, each optionally followed by a single trailing
newline, or the literal `"global"` (with no newline allowance). -/
def is_valid_id_amended (s : String) : Bool :=
  withOptionalTrailingNewline isMongoObjectidChars s.toList
    || withOptionalTrailingNewline isUlidChars s.toList
    || s == "global"

/-- C8 counterexample: the claim accepts exactly 24-character hex,
26-character modern, or `"global"`.  This 25-character input (24 zeros
plus a trailing newline) is accepted by `is_valid_id`, because
Python's `$` also matches just before a final newline. -/
theorem c8_trailing_newline_counterexample :
    is_valid_id "000000000000000000000000\n" = true ∧
    ("000000000000000000000000\n").length = 25 ∧
    "000000000000000000000000\n" ≠ "global" := by decide

/-- C8 (amended): a string is accepted iff it is a 24-character
hexadecimal string, or a 26-character modern-format string
(`[0-7]` then 25 characters of `[0-9A-HJKMNP-TV-Z]`), in each case
optionally followed by one trailing newline character, or the literal
`"global"`; every other string is rejected. -/
theorem c8_amended_validation (s : String) :
    is_valid_id s = is_valid_id_amended s := by
  unfold is_valid_id is_valid_id_amended withOptionalTrailingNewline
  rw [classesMatch_eq_matchesAll, classesMatch_eq_matchesAll,
    matchesAll_mongo, matchesAll_mongo, matchesAll_ulid, matchesAll_ulid]

/-! ## C5 -/

/-- C5: with `replaceConflicts = false`, no plan entry shares an alias
with any entry of the target snapshot: the conflicting entries are all
dropped by the alias filter, and the capacity stage only ever removes
entries. -/
theorem c5_no_output_alias_in_target
    (from_emote_set target_emote_set : EmoteSet) (trimToCapacity : Bool)
    (e t : EmoteSetEmote)
    (he : e ∈ process_emotes_to_copy from_emote_set target_emote_set false trimToCapacity)
    (ht : t ∈ target_emote_set.emotes.items) :
    e.«alias» ≠ t.«alias» := by
  unfold process_emotes_to_copy at he
  simp only [Bool.and_false, Bool.false_eq_true, if_false] at he
  have he' : e ∈ (from_emote_set.emotes.items.filter (fun x => !x.data.flags.is_private)).filter
      (fun x => !(target_emote_set.emotes.items.map (fun y => y.«alias»)).contains x.«alias») := by
    revert he
    split
    · exact fun he => pySliceTo_subset _ _ he
    · exact fun he => he
  rw [List.mem_filter] at he'
  have hnot : e.«alias» ∉ target_emote_set.emotes.items.map (fun y => y.«alias») := by
    intro hmem
    have hc := he'.2
    simp [List.contains, List.elem_eq_mem, hmem] at hc
  intro heq
  apply hnot
  rw [heq]
  exact List.mem_map_of_mem _ ht

/-- C5 witness: a concrete origin entry aliased `"b"` survives into the
plan of a session with `replaceConflicts = false` against a target
holding an entry aliased `"a"`; the theorem yields `"b" ≠ "a"`. -/
theorem c5_no_output_alias_in_target_witness :
    (⟨"E", "b", ⟨"E", "b", ⟨false⟩⟩⟩ : EmoteSetEmote).«alias» ≠
      (⟨"T", "a", ⟨"T", "a", ⟨false⟩⟩⟩ : EmoteSetEmote).«alias» :=
  c5_no_output_alias_in_target
    ⟨"o", "origin", 10, ⟨[⟨"E", "b", ⟨"E", "b", ⟨false⟩⟩⟩], 1⟩, ⟨"u", []⟩⟩
    ⟨"t", "target", 10, ⟨[⟨"T", "a", ⟨"T", "a", ⟨false⟩⟩⟩], 1⟩, ⟨"u", []⟩⟩
    true _ _ (by decide) (by decide)

/-! ## Executor observation lemmas -/

theorem withRemoveCall_outcome (cid : String) (r : ItemRun) :
    (withRemoveCall cid r).outcome = r.outcome := rfl

theorem withRemoveCall_delays (cid : String) (r : ItemRun) :
    (withRemoveCall cid r).delays = r.delays := rfl

theorem withRemoveCall_removeCalls (cid : String) (r : ItemRun) :
    (withRemoveCall cid r).removeCalls = cid :: r.removeCalls := rfl

theorem retryRun_lt (r : ItemRun) (attempts : Nat) (h : attempts + 1 < 5) :
    retryRun r attempts =
      { r with delays := retrySleep (attempts + 1) :: r.delays } := by
  unfold retryRun
  rw [if_neg (by omega)]

theorem retryRun_exhausted (r : ItemRun) (attempts : Nat) (h : attempts + 1 ≥ 5) :
    retryRun r attempts = ⟨.exited 1, [], []⟩ := by
  unfold retryRun
  rw [if_pos h]

/-- The add call failed with `RestError` or `OtherError`. -/
def retryable (o : MutationOutcome) : Prop :=
  o = .restError ∨ o = .otherError

theorem addPhase_retryable (r : ItemRun) (o : MutationOutcome) (h : retryable o) :
    addPhase o r = r := by
  rcases h with h | h <;> rw [h] <;> rfl

/-- This iteration of the `while True` body ends in the
`except (RestError, OtherError)` handler with `skip_removal` still
false: either the removal call fails with a retryable error, or the
removal succeeds (or is not needed) and the add call fails with a
retryable error. -/
def attemptRetries (conflict : Option String) (a : Attempt) : Prop :=
  match conflict with
  | none => retryable a.addRes
  | some _ => retryable a.removeRes ∨ (a.removeRes = .ok ∧ retryable a.addRes)

/-- This iteration completes the remove-then-add step: removal (when a
conflicting target entry exists) and the add call both succeed. -/
def attemptSucceeds (conflict : Option String) (a : Attempt) : Prop :=
  (conflict = none ∨ a.removeRes = .ok) ∧ a.addRes = .ok

theorem copyEmoteLoop_retry_obs (conflict : Option String) (a : Attempt)
    (rest : List Attempt) (attempts : Nat) (h : attemptRetries conflict a) :
    (copyEmoteLoop conflict (a :: rest) false attempts).outcome =
      (retryRun (copyEmoteLoop conflict rest false (attempts + 1)) attempts).outcome ∧
    (copyEmoteLoop conflict (a :: rest) false attempts).delays =
      (retryRun (copyEmoteLoop conflict rest false (attempts + 1)) attempts).delays := by
  obtain ⟨ra, aa⟩ := a
  match conflict with
  | none =>
    unfold attemptRetries at h
    simp [copyEmoteLoop, addPhase_retryable _ _ h]
  | some cid =>
    unfold attemptRetries at h
    rcases h with h | ⟨hrem, hadd⟩
    · rcases h with h | h <;> simp only at h <;> subst h <;>
        simp [copyEmoteLoop, withRemoveCall_outcome, withRemoveCall_delays]
    · simp only at hrem hadd
      subst hrem
      simp [copyEmoteLoop, addPhase_retryable _ _ hadd,
        withRemoveCall_outcome, withRemoveCall_delays]

theorem copyEmoteLoop_success_obs (conflict : Option String) (a : Attempt)
    (rest : List Attempt) (attempts : Nat) (h : attemptSucceeds conflict a) :
    (copyEmoteLoop conflict (a :: rest) false attempts).outcome = .added ∧
    (copyEmoteLoop conflict (a :: rest) false attempts).delays = [] := by
  obtain ⟨ra, aa⟩ := a
  obtain ⟨hr, ha⟩ := h
  simp only at ha
  subst ha
  match conflict, hr with
  | none, _ => simp [copyEmoteLoop, addPhase]
  | some cid, Or.inr hrem =>
    simp only at hrem
    subst hrem
    simp [copyEmoteLoop, addPhase, withRemoveCall_outcome, withRemoveCall_delays]

theorem retryRun_lt_outcome (r : ItemRun) (attempts : Nat) (h : attempts + 1 < 5) :
    (retryRun r attempts).outcome = r.outcome := by
  rw [retryRun_lt _ _ h]

theorem retryRun_lt_delays (r : ItemRun) (attempts : Nat) (h : attempts + 1 < 5) :
    (retryRun r attempts).delays = retrySleep (attempts + 1) :: r.delays := by
  rw [retryRun_lt _ _ h]

theorem retryRun_lt_removeCalls (r : ItemRun) (attempts : Nat) (h : attempts + 1 < 5) :
    (retryRun r attempts).removeCalls = r.removeCalls := by
  rw [retryRun_lt _ _ h]

theorem retryRun_removeCalls (r : ItemRun) (attempts : Nat) :
    (retryRun r attempts).removeCalls =
      if attempts + 1 ≥ 5 then [] else r.removeCalls := by
  unfold retryRun
  split <;> rfl

/-- Once `skip_removal` is true, the rest of the item's loop never
calls `remove_emote` again. -/
theorem copyEmoteLoop_skip_removeCalls (cid : String) (trace : List Attempt)
    (att : Nat) : (copyEmoteLoop (some cid) trace true att).removeCalls = [] := by
  induction trace generalizing att with
  | nil => rfl
  | cons a rest ih =>
    obtain ⟨ra, aa⟩ := a
    cases aa <;> simp [copyEmoteLoop, addPhase, retryRun_removeCalls, ih]

/-! ## C3 -/

/-- C3 counterexample: the claim's backoff waits 30s before the first
retry and 45s before the later ones (total 30+45+45+45 = 165s).  The
code computes `45 - (15 if attempts > 1 else 0)`, which is 45s before
the first retry and 30s before every later one, so four consecutive
retryable failures followed by a success sleep [45, 30, 30, 30]
(135s), not [30, 45, 45, 45]. -/
theorem c3_backoff_counterexample :
    (copyEmoteLoop none
      [⟨.ok, .restError⟩, ⟨.ok, .restError⟩, ⟨.ok, .restError⟩, ⟨.ok, .restError⟩,
        ⟨.ok, .ok⟩] false 0).outcome = .added ∧
    (copyEmoteLoop none
      [⟨.ok, .restError⟩, ⟨.ok, .restError⟩, ⟨.ok, .restError⟩, ⟨.ok, .restError⟩,
        ⟨.ok, .ok⟩] false 0).delays = [45, 30, 30, 30] ∧
    (copyEmoteLoop none
      [⟨.ok, .restError⟩, ⟨.ok, .restError⟩, ⟨.ok, .restError⟩, ⟨.ok, .restError⟩,
        ⟨.ok, .ok⟩] false 0).delays ≠ [30, 45, 45, 45] := by decide

/-- C3 (amended): on `TransportError`/`UnclassifiedError` the executor
retries the same remove-then-add step, up to 5 total attempts per item,
waiting 45 seconds before the first retry and 30 seconds before every
later retry; an item that fails 4 times and succeeds on the 5th attempt
ends `Added` with total delay 45+30+30+30 seconds; after a 5th failed
attempt the session aborts fatally (exit status 1, non-zero) with no
further items processed. -/
theorem c3_amended_retry_policy
    (target : EmoteSet) (emote : EmoteSetEmote) (conflict : Option String)
    (hc : conflict = (conflictingEmote target emote).map (fun x => x.id))
    (a1 a2 a3 a4 a5 s : Attempt)
    (h1 : attemptRetries conflict a1) (h2 : attemptRetries conflict a2)
    (h3 : attemptRetries conflict a3) (h4 : attemptRetries conflict a4)
    (h5 : attemptRetries conflict a5) (hs : attemptSucceeds conflict s)
    (rest : List (EmoteSetEmote × List Attempt)) :
    (copyEmoteLoop conflict [a1, a2, a3, a4, s] false 0).outcome = .added ∧
    (copyEmoteLoop conflict [a1, a2, a3, a4, s] false 0).delays = [45, 30, 30, 30] ∧
    (copyEmoteLoop conflict [a1, a2, a3, a4, a5] false 0).outcome = .exited 1 ∧
    (copyEmoteLoop conflict [a1, a2, a3, a4, a5] false 0).delays = [45, 30, 30, 30] ∧
    (copy_emotes target ((emote, [a1, a2, a3, a4, a5]) :: rest)).outcome = .exited 1 ∧
    (copy_emotes target ((emote, [a1, a2, a3, a4, a5]) :: rest)).itemRuns.length = 1 := by
  have t1 := copyEmoteLoop_retry_obs conflict a1 [a2, a3, a4, s] 0 h1
  have t2 := copyEmoteLoop_retry_obs conflict a2 [a3, a4, s] 1 h2
  have t3 := copyEmoteLoop_retry_obs conflict a3 [a4, s] 2 h3
  have t4 := copyEmoteLoop_retry_obs conflict a4 [s] 3 h4
  have t5 := copyEmoteLoop_success_obs conflict s [] 4 hs
  have f1 := copyEmoteLoop_retry_obs conflict a1 [a2, a3, a4, a5] 0 h1
  have f2 := copyEmoteLoop_retry_obs conflict a2 [a3, a4, a5] 1 h2
  have f3 := copyEmoteLoop_retry_obs conflict a3 [a4, a5] 2 h3
  have f4 := copyEmoteLoop_retry_obs conflict a4 [a5] 3 h4
  have f5 := copyEmoteLoop_retry_obs conflict a5 [] 4 h5
  have ho : (copyEmoteLoop conflict [a1, a2, a3, a4, s] false 0).outcome = .added := by
    rw [t1.1, retryRun_lt_outcome _ _ (by omega), t2.1,
      retryRun_lt_outcome _ _ (by omega), t3.1, retryRun_lt_outcome _ _ (by omega),
      t4.1, retryRun_lt_outcome _ _ (by omega), t5.1]
  have hd : (copyEmoteLoop conflict [a1, a2, a3, a4, s] false 0).delays
      = [45, 30, 30, 30] := by
    rw [t1.2, retryRun_lt_delays _ _ (by omega), t2.2,
      retryRun_lt_delays _ _ (by omega), t3.2, retryRun_lt_delays _ _ (by omega),
      t4.2, retryRun_lt_delays _ _ (by omega), t5.2]
    decide
  have fo : (copyEmoteLoop conflict [a1, a2, a3, a4, a5] false 0).outcome
      = .exited 1 := by
    rw [f1.1, retryRun_lt_outcome _ _ (by omega), f2.1,
      retryRun_lt_outcome _ _ (by omega), f3.1, retryRun_lt_outcome _ _ (by omega),
      f4.1, retryRun_lt_outcome _ _ (by omega), f5.1,
      retryRun_exhausted _ _ (by omega)]
  have fd : (copyEmoteLoop conflict [a1, a2, a3, a4, a5] false 0).delays
      = [45, 30, 30, 30] := by
    rw [f1.2, retryRun_lt_delays _ _ (by omega), f2.2,
      retryRun_lt_delays _ _ (by omega), f3.2, retryRun_lt_delays _ _ (by omega),
      f4.2, retryRun_lt_delays _ _ (by omega), f5.2,
      retryRun_exhausted _ _ (by omega)]
    decide
  refine ⟨ho, hd, fo, fd, ?_, ?_⟩ <;>
  · simp only [copy_emotes, ← hc]
    rw [fo]
    try rfl

/-- C3 witness: the amended retry policy at a concrete conflict-free
item whose add call fails with `RestError` four times then succeeds,
and a session whose single item fails all five attempts. -/
theorem c3_amended_retry_policy_witness :
    (copyEmoteLoop none
      [⟨.ok, .restError⟩, ⟨.ok, .restError⟩, ⟨.ok, .restError⟩, ⟨.ok, .restError⟩,
        ⟨.ok, .ok⟩] false 0).outcome = .added ∧
    (copyEmoteLoop none
      [⟨.ok, .restError⟩, ⟨.ok, .restError⟩, ⟨.ok, .restError⟩, ⟨.ok, .restError⟩,
        ⟨.ok, .ok⟩] false 0).delays = [45, 30, 30, 30] ∧
    (copy_emotes ⟨"t", "target", 5, ⟨[], 0⟩, ⟨"u", []⟩⟩
      [(⟨"E", "a", ⟨"E", "a", ⟨false⟩⟩⟩,
        [⟨.ok, .restError⟩, ⟨.ok, .restError⟩, ⟨.ok, .restError⟩, ⟨.ok, .restError⟩,
          ⟨.ok, .restError⟩])]).outcome = .exited 1 := by
  have h := c3_amended_retry_policy
    ⟨"t", "target", 5, ⟨[], 0⟩, ⟨"u", []⟩⟩ ⟨"E", "a", ⟨"E", "a", ⟨false⟩⟩⟩ none rfl
    ⟨.ok, .restError⟩ ⟨.ok, .restError⟩ ⟨.ok, .restError⟩ ⟨.ok, .restError⟩
    ⟨.ok, .restError⟩ ⟨.ok, .ok⟩
    (Or.inl rfl) (Or.inl rfl) (Or.inl rfl) (Or.inl rfl) (Or.inl rfl)
    ⟨Or.inl rfl, rfl⟩ []
  exact ⟨h.1, h.2.1, h.2.2.2.2.1⟩

/-! ## C6 -/

/-- C6: when removal of the recorded conflicting entry fails with
`NotFoundError`, the executor marks removal as skipped for this item
only — `remove_emote` is called exactly once for the item no matter how
the rest of the item goes — and proceeds directly to the add step in
the same iteration (an immediately successful add yields `Added` with
no retry delay); and every new plan item starts its loop with the skip
flag cleared (`skip_removal = false`, `attempts = 0`). -/
theorem c6_remove_not_found_marks_skip
    (cid : String) (a : Attempt) (rest trace : List Attempt) (att : Nat)
    (target : EmoteSet) (emote : EmoteSetEmote)
    (items : List (EmoteSetEmote × List Attempt))
    (h404 : a.removeRes = .emoteNotFoundError) :
    (copyEmoteLoop (some cid) (a :: rest) false att).removeCalls = [cid] ∧
    (a.addRes = .ok → copyEmoteLoop (some cid) (a :: rest) false att
      = ⟨.added, [], [cid]⟩) ∧
    (copy_emotes target ((emote, trace) :: items)).itemRuns.head? =
      some (copyEmoteLoop ((conflictingEmote target emote).map (fun x => x.id))
        trace false 0) := by
  obtain ⟨ra, aa⟩ := a
  simp only at h404
  subst h404
  refine ⟨?_, ?_, ?_⟩
  · cases aa <;>
      simp [copyEmoteLoop, addPhase, withRemoveCall_removeCalls,
        retryRun_removeCalls, copyEmoteLoop_skip_removeCalls]
  · intro haa
    simp only at haa
    subst haa
    rfl
  · simp only [copy_emotes]
    split <;> rfl

/-- C6 witness: one conflicted item whose removal 404s and whose add
immediately succeeds, followed by a session head item. -/
theorem c6_remove_not_found_marks_skip_witness :
    (copyEmoteLoop (some "C") [⟨.emoteNotFoundError, .ok⟩] false 0).removeCalls
      = ["C"] ∧
    copyEmoteLoop (some "C") [⟨.emoteNotFoundError, .ok⟩] false 0
      = ⟨.added, [], ["C"]⟩ := by
  have h := c6_remove_not_found_marks_skip "C" ⟨.emoteNotFoundError, .ok⟩ [] []
    0 ⟨"t", "target", 5, ⟨[], 0⟩, ⟨"u", []⟩⟩ ⟨"E", "a", ⟨"E", "a", ⟨false⟩⟩⟩ [] rfl
  exact ⟨h.1, h.2.1 rfl⟩

/-! ## C7 -/

/-- The control flow of this iteration reaches the `add_emote` call:
there is no conflicting entry, or the removal call succeeds, or the
removal 404s (which only sets the skip flag). -/
def reachesAdd (conflict : Option String) (a : Attempt) : Prop :=
  conflict = none ∨ a.removeRes = .ok ∨ a.removeRes = .emoteNotFoundError

/-- C7: when the add call fails with `CapacityError` the session exits
immediately — no retry sleeps — through `sys.exit(0)`: a zero,
success-like outcome, with no further plan items processed. -/
theorem c7_capacity_graceful_abort
    (target : EmoteSet) (emote : EmoteSetEmote) (conflict : Option String)
    (hc : conflict = (conflictingEmote target emote).map (fun x => x.id))
    (a : Attempt) (rest : List Attempt)
    (items : List (EmoteSetEmote × List Attempt))
    (hcap : a.addRes = .capacityError) (hr : reachesAdd conflict a) :
    (copyEmoteLoop conflict (a :: rest) false 0).outcome = .exited 0 ∧
    (copyEmoteLoop conflict (a :: rest) false 0).delays = [] ∧
    copy_emotes target ((emote, a :: rest) :: items) =
      ⟨[copyEmoteLoop conflict (a :: rest) false 0], .exited 0⟩ := by
  obtain ⟨ra, aa⟩ := a
  simp only at hcap
  subst hcap
  have key : (copyEmoteLoop conflict (⟨ra, .capacityError⟩ :: rest) false 0).outcome
      = .exited 0 ∧
      (copyEmoteLoop conflict (⟨ra, .capacityError⟩ :: rest) false 0).delays = [] := by
    rcases hr with hn | hok | h404
    · subst hn
      simp [copyEmoteLoop, addPhase]
    · simp only at hok
      subst hok
      cases conflict <;>
        simp [copyEmoteLoop, addPhase, withRemoveCall_outcome, withRemoveCall_delays]
    · simp only at h404
      subst h404
      cases conflict <;>
        simp [copyEmoteLoop, addPhase, withRemoveCall_outcome, withRemoveCall_delays]
  refine ⟨key.1, key.2, ?_⟩
  simp only [copy_emotes, ← hc]
  rw [key.1]

/-- C7 witness: a conflict-free item whose first add attempt hits
`CapacityError`, with one further plan item that is never reached. -/
theorem c7_capacity_graceful_abort_witness :
    (copyEmoteLoop none [⟨.ok, .capacityError⟩] false 0).outcome = .exited 0 ∧
    copy_emotes ⟨"t", "target", 5, ⟨[], 0⟩, ⟨"u", []⟩⟩
      [(⟨"E", "a", ⟨"E", "a", ⟨false⟩⟩⟩, [⟨.ok, .capacityError⟩]),
       (⟨"F", "b", ⟨"F", "b", ⟨false⟩⟩⟩, [⟨.ok, .ok⟩])] =
      ⟨[copyEmoteLoop none [⟨.ok, .capacityError⟩] false 0], .exited 0⟩ := by
  have h := c7_capacity_graceful_abort
    ⟨"t", "target", 5, ⟨[], 0⟩, ⟨"u", []⟩⟩ ⟨"E", "a", ⟨"E", "a", ⟨false⟩⟩⟩ none rfl
    ⟨.ok, .capacityError⟩ []
    [(⟨"F", "b", ⟨"F", "b", ⟨false⟩⟩⟩, [⟨.ok, .ok⟩])] rfl (Or.inl rfl)
  exact ⟨h.1, h.2.2⟩

/-! ## C9 -/

/-- C9: a successful removal is not remembered: if the add call then
fails with a retryable error, the next attempt re-runs the lookup
against the stale snapshot and calls `remove_emote` again for the same
conflicting id — so a single plan item can issue several removal calls.
Concretely, remove-ok/add-fails then remove-ok/add-ok removes the same
id twice and ends `Added`. -/
theorem c9_removal_repeated_after_add_failure
    (cid : String) (a : Attempt) (rest : List Attempt) (att : Nat)
    (hrem : a.removeRes = .ok) (hadd : retryable a.addRes) (hlt : att + 1 < 5) :
    (copyEmoteLoop (some cid) (a :: rest) false att).removeCalls =
      cid :: (copyEmoteLoop (some cid) rest false (att + 1)).removeCalls ∧
    copyEmoteLoop (some cid) [a, ⟨.ok, .ok⟩] false 0 = ⟨.added, [45], [cid, cid]⟩ := by
  obtain ⟨ra, aa⟩ := a
  simp only at hrem
  subst hrem
  constructor
  · rcases hadd with h | h <;> simp only at h <;> subst h <;>
      simp [copyEmoteLoop, addPhase, withRemoveCall_removeCalls,
        retryRun_lt_removeCalls _ _ hlt]
  · rcases hadd with h | h <;> simp only at h <;> subst h <;> rfl

/-- C9 witness: the double removal at a concrete conflicting id. -/
theorem c9_removal_repeated_after_add_failure_witness :
    copyEmoteLoop (some "C") [⟨.ok, .restError⟩, ⟨.ok, .ok⟩] false 0
      = ⟨.added, [45], ["C", "C"]⟩ :=
  (c9_removal_repeated_after_add_failure "C" ⟨.ok, .restError⟩ [⟨.ok, .ok⟩] 0
    rfl (Or.inl rfl) (by omega)).2

end EmoteSetCopier
